import Mathlib

/-!
Verification development for the trading-monitor alert pipeline.

Shallow embedding of the services the claims concern:
* `DeduplicationCooler` (src/dist/services/DeduplicationCooler.js)
* `OpportunityEngine`   (src/src/services/OpportunityEngine.ts)
* `RiskAssessor`        (risk assessor module)
* `AlertClassifier`     (alert classifier module)

Modelling conventions:
* JavaScript numbers are modelled as exact rationals (ℚ); timestamps
  (`Date` / `Date.now()`) as milliseconds in ℕ.
* JavaScript `Map` objects are modelled as association lists with
  insertion-order-preserving `mapSet` / `mapGet`.
* `x.toFixed(n)` followed by unary plus is modelled as rounding to the
  nearest multiple of 10^-n (half up), which is what it computes on the
  exact decimal values involved here.
* Async methods that can reject are modelled in `Except`; subcomputations
  whose JS implementation draws on `Math.random()` (volatility, liquidity,
  market condition, the classifier ATR, the volume z-score of the
  technical summary, which needs a square root) are taken as explicit
  arguments, so every theorem quantifies over all values they can take.
-/

unseal Rat.mul Rat.add Rat.sub Rat.inv Rat.ofScientific

/-- JS `Map.prototype.get` on an association list. -/
def mapGet {α β : Type} [DecidableEq α] (m : List (α × β)) (k : α) : Option β :=
  match m with
  | [] => none
  | (k2, v) :: rest => if k2 = k then some v else mapGet rest k

/-- JS `Map.prototype.set` on an association list (update in place, else append). -/
def mapSet {α β : Type} [DecidableEq α] (m : List (α × β)) (k : α) (v : β) : List (α × β) :=
  match m with
  | [] => [(k, v)]
  | (k2, v2) :: rest => if k2 = k then (k2, v) :: rest else (k2, v2) :: mapSet rest k v

theorem mapGet_mapSet_self {α β : Type} [DecidableEq α] (m : List (α × β)) (k : α) (v : β) :
    mapGet (mapSet m k v) k = some v := by
  induction m with
  | nil => simp [mapGet, mapSet]
  | cons hd tl ih =>
    obtain ⟨k2, v2⟩ := hd
    by_cases h : k2 = k <;> simp [mapGet, mapSet, h, ih]

theorem mapGet_mapSet_ne {α β : Type} [DecidableEq α] (m : List (α × β)) (k k2 : α) (v : β)
    (h : k ≠ k2) : mapGet (mapSet m k v) k2 = mapGet m k2 := by
  induction m with
  | nil => simp [mapGet, mapSet, h]
  | cons hd tl ih =>
    obtain ⟨k3, v3⟩ := hd
    by_cases h3 : k3 = k
    · subst h3
      simp [mapGet, mapSet, h]
    · simp [mapGet, mapSet, h3, ih]

/-- `AlertLevel` enum from src/src/types/index.ts (string-valued in TS). -/
inductive AlertLevel : Type
  | WATCH
  | READY
  | FIRED
deriving DecidableEq, Repr

/-- The string value of an `AlertLevel` (the TS enum members are the strings). -/
def AlertLevel.toStr : AlertLevel → String
  | .WATCH => "WATCH"
  | .READY => "READY"
  | .FIRED => "FIRED"

/-- `TradingOpportunity` from src/src/types/index.ts.  `strategy`, `direction`,
`alertLevel` and `confidence` are string unions in TS and kept as strings.
The display-only `trigger` text and the optional `snapshotId` are omitted. -/
structure TradingOpportunity where
  id : String
  symbol : String
  strategy : String
  direction : String
  alertLevel : String
  entry : ℚ
  entryPrice : ℚ
  stopLoss : ℚ
  takeProfit1 : ℚ
  takeProfit2 : ℚ
  takeProfit : ℚ
  netRR : ℚ
  riskRewardRatio : ℚ
  distanceToEntry : ℚ
  confidence : String
  timestamp : Nat
deriving DecidableEq, Repr

/-- `ClassifiedAlert` from src/src/types/index.ts. -/
structure ClassifiedAlert where
  opportunityId : String
  level : AlertLevel
  distanceToEntry : ℚ
  atr : ℚ
  estimatedTimeToTrigger : ℤ
  classifiedAt : Nat
  opportunity : TradingOpportunity
deriving DecidableEq, Repr

/-- Cooldown record stored by the cooler (shape of the object literal in
`updateCooldownEntry`, src/dist/services/DeduplicationCooler.js lines 51-62). -/
structure CooldownEntry where
  alertId : String
  symbol : String
  strategy : String
  level : AlertLevel
  lastNotified : Nat
  cooldownUntil : Nat
deriving DecidableEq, Repr

/-- The mutable state of a `DeduplicationCooler` instance. -/
structure DeduplicationCooler where
  cooldownMap : List (String × CooldownEntry)
  notificationStats : List (String × Nat)
  adaptiveThresholds : List (String × ℚ)
deriving DecidableEq, Repr

namespace DeduplicationCooler

/-- Fresh instance: all three maps empty. -/
def empty : DeduplicationCooler := ⟨[], [], []⟩

/-- `cooldownPeriod = 30 * 60 * 1000` (30 minutes, in milliseconds). -/
def cooldownPeriod : Nat := 30 * 60 * 1000

/-- `generateKey` (lines 40-42): symbol, strategy and level joined by `_`. -/
def generateKey (alert : ClassifiedAlert) : String :=
  alert.opportunity.symbol ++ "_" ++ alert.opportunity.strategy ++ "_" ++ alert.level.toStr

/-- The numeric order used by `isLevelUpgrade` (WATCH 1, READY 2, FIRED 3). -/
def levelOrder : AlertLevel → Nat
  | .WATCH => 1
  | .READY => 2
  | .FIRED => 3

/-- `isLevelUpgrade` (lines 43-50): the new level strictly outranks the stored one. -/
def isLevelUpgrade (existingLevel newLevel : AlertLevel) : Bool :=
  levelOrder existingLevel < levelOrder newLevel

/-- `getBaseThreshold` (lines 71-82). -/
def getBaseThreshold : AlertLevel → ℚ
  | .FIRED => 2
  | .READY => 5/2
  | .WATCH => 3

/-- JS `v || dflt` on a possibly-missing number: missing and `0` are falsy. -/
def falsyOr (v : Option ℚ) (dflt : ℚ) : ℚ :=
  match v with
  | none => dflt
  | some x => if x = 0 then dflt else x

/-- `isAboveAdaptiveThreshold` (lines 63-70).  `riskRewardRatio || 0` is the
identity on the non-optional rational field and is dropped. -/
def isAboveAdaptiveThreshold (c : DeduplicationCooler) (alert : ClassifiedAlert) : Bool :=
  let baseThreshold := getBaseThreshold alert.level
  let adaptiveThreshold := falsyOr (mapGet c.adaptiveThresholds alert.opportunity.symbol) baseThreshold
  adaptiveThreshold ≤ alert.opportunity.riskRewardRatio

/-- `updateCooldownEntry` (lines 51-62). -/
def updateCooldownEntry (c : DeduplicationCooler) (key : String) (alert : ClassifiedAlert)
    (now : Nat) : DeduplicationCooler :=
  let entry : CooldownEntry :=
    { alertId := alert.opportunityId
      symbol := alert.opportunity.symbol
      strategy := alert.opportunity.strategy
      level := alert.level
      lastNotified := now
      cooldownUntil := now + cooldownPeriod }
  { c with cooldownMap := mapSet c.cooldownMap key entry }

/-- `adjustAdaptiveThreshold` (lines 91-100): when the lifetime count exceeds 50,
store `min(current * 1.1, 5.0)` where `current` defaults (falsy) to 2.0. -/
def adjustAdaptiveThreshold (c : DeduplicationCooler) (symbol : String) : DeduplicationCooler :=
  let currentThreshold := falsyOr (mapGet c.adaptiveThresholds symbol) 2
  let notificationCount := (mapGet c.notificationStats symbol).getD 0
  if 50 < notificationCount then
    { c with adaptiveThresholds :=
        mapSet c.adaptiveThresholds symbol (min (currentThreshold * (11/10)) 5) }
  else c

/-- `updateNotificationStats` (lines 83-90): bump the per-symbol count and run
the adjustment on every 10th notification. -/
def updateNotificationStats (c : DeduplicationCooler) (symbol : String) : DeduplicationCooler :=
  let current := (mapGet c.notificationStats symbol).getD 0
  let c2 := { c with notificationStats := mapSet c.notificationStats symbol (current + 1) }
  if (current + 1) % 10 = 0 then adjustAdaptiveThreshold c2 symbol else c2

/-- The adaptive-gate arm of `shouldNotify` (lines 27-33).  The awaited
`isAboveAdaptiveThreshold` call is the injected `adaptiveCheck`, which may
reject (model of a thrown/rejected promise inside the decision). -/
def adaptiveGateBranch (c : DeduplicationCooler) (alert : ClassifiedAlert) (now : Nat)
    (key : String) (adaptiveCheck : DeduplicationCooler → ClassifiedAlert → Except String Bool) :
    Except String (Bool × DeduplicationCooler) :=
  match adaptiveCheck c alert with
  | .error e => .error e
  | .ok true =>
      .ok (true, updateNotificationStats (updateCooldownEntry c key alert now)
        alert.opportunity.symbol)
  | .ok false => .ok (false, c)

/-- The body of `shouldNotify` inside the `try` block (lines 12-33). -/
def shouldNotifyBody (c : DeduplicationCooler) (alert : ClassifiedAlert) (now : Nat)
    (adaptiveCheck : DeduplicationCooler → ClassifiedAlert → Except String Bool) :
    Except String (Bool × DeduplicationCooler) :=
  let key := generateKey alert
  match mapGet c.cooldownMap key with
  | some existing =>
      if now < existing.cooldownUntil then
        if isLevelUpgrade existing.level alert.level then
          .ok (true, updateCooldownEntry c key alert now)
        else
          .ok (false, c)
      else adaptiveGateBranch c alert now key adaptiveCheck
  | none => adaptiveGateBranch c alert now key adaptiveCheck

/-- `shouldNotify` (lines 11-39): the `catch` arm maps any error raised inside
the decision to `false` (the state is untouched, since the only failure site
precedes every mutation). -/
def shouldNotifyWith (c : DeduplicationCooler) (alert : ClassifiedAlert) (now : Nat)
    (adaptiveCheck : DeduplicationCooler → ClassifiedAlert → Except String Bool) :
    Bool × DeduplicationCooler :=
  match shouldNotifyBody c alert now adaptiveCheck with
  | .ok r => r
  | .error _ => (false, c)

/-- `shouldNotify` with the concrete (pure, never-rejecting) adaptive check. -/
def shouldNotify (c : DeduplicationCooler) (alert : ClassifiedAlert) (now : Nat) :
    Bool × DeduplicationCooler :=
  shouldNotifyWith c alert now (fun c2 a => .ok (isAboveAdaptiveThreshold c2 a))

/-- The threshold value a `shouldNotify` decision compares the risk/reward
against, for a given symbol and level (the `adaptiveThreshold` local of
`isAboveAdaptiveThreshold`). -/
def effectiveThreshold (c : DeduplicationCooler) (symbol : String) (level : AlertLevel) : ℚ :=
  falsyOr (mapGet c.adaptiveThresholds symbol) (getBaseThreshold level)

end DeduplicationCooler

/-- Trend values of the technical summary (`analyzeTechnicalFramework`). -/
inductive Trend : Type
  | UP
  | DOWN
  | RANGE
deriving DecidableEq, Repr

/-- Signal values of the technical summary (`analyzeTechnicalFramework`). -/
inductive Signal : Type
  | CHOP
  | BREAKOUT_UP
  | BREAKOUT_DOWN
  | PULLBACK_LONG
  | PULLBACK_SHORT
deriving DecidableEq, Repr

/-- The fields of `analysis.tfSummary` that `generateCandidateStrategies`
reads.  `volZ` is computed in the source with `Math.sqrt` (a volume z-score),
so it is carried as data here and universally quantified in the theorems. -/
structure TfSummary where
  trend : Trend
  signal : Signal
  volZ : ℚ
deriving DecidableEq, Repr

/-- The fields of `MarketData` the strategy builders read. -/
structure MarketInfo where
  symbol : String
  timestamp : Nat
deriving DecidableEq, Repr

/-- OHLCV candle (`KlineData`); `openPrice` is the TS field `open`. -/
structure Kline where
  openTime : Nat
  openPrice : ℚ
  high : ℚ
  low : ℚ
  close : ℚ
  volume : ℚ
deriving DecidableEq, Repr

namespace OpportunityEngine

/-- `minNetRR = 1.5` (src/src/services/OpportunityEngine.ts line 5). -/
def minNetRR : ℚ := 3/2

/-- `TRADING_COSTS.makerFee = 0.0002`. -/
def makerFee : ℚ := 2/10000

/-- `TRADING_COSTS.takerFee = 0.0004`. -/
def takerFee : ℚ := 4/10000

/-- `TRADING_COSTS.slippage = 0.0003`. -/
def slippage : ℚ := 3/10000

/-- `TRADING_COSTS.getRoundTripCost` (lines 12-18). -/
def getRoundTripCost (entryIsMarket exitIsMarket entrySlipOn exitSlipOn : Bool) : ℚ :=
  (if entryIsMarket then takerFee else makerFee)
    + (if exitIsMarket then takerFee else makerFee)
    + (if entryIsMarket && entrySlipOn then slippage else 0)
    + (if exitIsMarket && exitSlipOn then slippage else 0)

/-- `+x.toFixed(2)`: round to the nearest hundredth. -/
def toFixed2 (q : ℚ) : ℚ := (round (q * 100) : ℤ) / 100

/-- `+x.toFixed(4)`: round to the nearest ten-thousandth. -/
def toFixed4 (q : ℚ) : ℚ := (round (q * 10000) : ℤ) / 10000

/-- `calculateBaseStopDist` (lines 428-436).  `isNum` always holds of a
rational; `!atr` is falsy for `null` and `0`. -/
def calculateBaseStopDist (price : ℚ) (atr : Option ℚ) : Option ℚ :=
  match atr with
  | none => none
  | some a =>
      if a = 0 then none
      else some (max (a * (3/2)) (max (price * (12/10000)) (price * (1/1000))))

/-- The true-range sequence of `calculateATR` (lines 139-154): one value per
consecutive candle pair.  The null guards never fire on total fields. -/
def trueRanges : List Kline → List ℚ
  | [] => []
  | [_] => []
  | k0 :: k1 :: rest =>
      max (k1.high - k1.low) (max |k1.high - k0.close| |k1.low - k0.close|)
        :: trueRanges (k1 :: rest)

/-- `calculateATR` (lines 136-158): mean of the last `period` true ranges. -/
def calculateATR (klines : List Kline) (period : Nat) : Option ℚ :=
  if klines.length < period + 2 then none
  else
    let trs := trueRanges klines
    if trs.length < period then none
    else some ((trs.drop (trs.length - period)).foldl (· + ·) 0 / (period : ℚ))

/-- `buildBreakoutStrategy` (lines 273-316). -/
def buildBreakoutStrategy (direction : String) (price : ℚ) (atr : Option ℚ)
    (market : MarketInfo) (nowMs : Nat) : Option TradingOpportunity :=
  match calculateBaseStopDist price atr with
  | none => none
  | some baseStopDist =>
      let entry := price
      let stopLoss := if direction = "LONG" then entry - baseStopDist else entry + baseStopDist
      let stopDist := |entry - stopLoss|
      let takeProfit1 := if direction = "LONG" then entry + stopDist * (5/2)
        else entry - stopDist * (5/2)
      let takeProfit2 := if direction = "LONG" then entry + stopDist * 4
        else entry - stopDist * 4
      let costPct := getRoundTripCost true true false true
      let grossRR := |takeProfit1 - entry| / stopDist
      let costR := costPct * entry / stopDist
      let netRR := grossRR - costR
      if netRR < minNetRR then none
      else some
        { id := "BREAKOUT_" ++ direction ++ "_" ++ toString nowMs
          symbol := market.symbol
          strategy := "BREAKOUT"
          direction := direction
          alertLevel := "WATCH"
          entry := entry
          entryPrice := entry
          stopLoss := stopLoss
          takeProfit1 := takeProfit1
          takeProfit2 := takeProfit2
          takeProfit := takeProfit1
          netRR := toFixed2 netRR
          riskRewardRatio := toFixed2 netRR
          distanceToEntry := 0
          confidence := "MEDIUM"
          timestamp := market.timestamp }

/-- `buildPullbackStrategy` (lines 318-368). -/
def buildPullbackStrategy (direction : String) (price : ℚ) (atr : Option ℚ)
    (market : MarketInfo) (nowMs : Nat) : Option TradingOpportunity :=
  match calculateBaseStopDist price atr with
  | none => none
  | some baseStopDist =>
      let pullbackOffset := baseStopDist * (3/10)
      let entry := if direction = "LONG" then price - pullbackOffset else price + pullbackOffset
      let stopLoss := if direction = "LONG" then entry - baseStopDist else entry + baseStopDist
      let stopDist := |entry - stopLoss|
      let takeProfit1 := if direction = "LONG" then entry + stopDist * (5/2)
        else entry - stopDist * (5/2)
      let takeProfit2 := if direction = "LONG" then entry + stopDist * 4
        else entry - stopDist * 4
      let costPct := getRoundTripCost false true false true
      let grossRR := |takeProfit1 - entry| / stopDist
      let costR := costPct * entry / stopDist
      let netRR := grossRR - costR
      if netRR < minNetRR then none
      else some
        { id := "PULLBACK_" ++ direction ++ "_" ++ toString nowMs
          symbol := market.symbol
          strategy := "PULLBACK"
          direction := direction
          alertLevel := "WATCH"
          entry := entry
          entryPrice := entry
          stopLoss := stopLoss
          takeProfit1 := takeProfit1
          takeProfit2 := takeProfit2
          takeProfit := takeProfit1
          netRR := toFixed2 netRR
          riskRewardRatio := toFixed2 netRR
          distanceToEntry := toFixed4 (|entry - price| / price)
          confidence := "HIGH"
          timestamp := market.timestamp }

/-- `buildTrendFollowStrategy` (lines 370-424). -/
def buildTrendFollowStrategy (direction : String) (price : ℚ) (atr : Option ℚ)
    (market : MarketInfo) (nowMs : Nat) : Option TradingOpportunity :=
  match calculateBaseStopDist price atr with
  | none => none
  | some baseStopDist =>
      let widerStopDist := baseStopDist * (6/5)
      let entry := price
      let stopLoss := if direction = "LONG" then entry - widerStopDist else entry + widerStopDist
      let stopDist := |entry - stopLoss|
      let takeProfit1 := if direction = "LONG" then entry + stopDist * 3
        else entry - stopDist * 3
      let takeProfit2 := if direction = "LONG" then entry + stopDist * 5
        else entry - stopDist * 5
      let costPct := getRoundTripCost true true false true
      let grossRR := |takeProfit1 - entry| / stopDist
      let costR := costPct * entry / stopDist
      let netRR := grossRR - costR
      if netRR < minNetRR then none
      else some
        { id := "TREND_FOLLOW_" ++ direction ++ "_" ++ toString nowMs
          symbol := market.symbol
          strategy := "TREND_FOLLOW"
          direction := direction
          alertLevel := "WATCH"
          entry := entry
          entryPrice := entry
          stopLoss := stopLoss
          takeProfit1 := takeProfit1
          takeProfit2 := takeProfit2
          takeProfit := takeProfit1
          netRR := toFixed2 netRR
          riskRewardRatio := toFixed2 netRR
          distanceToEntry := 0
          confidence := "MEDIUM"
          timestamp := market.timestamp }

/-- `signal?.startsWith("BREAKOUT_")`. -/
def signalIsBreakout : Signal → Bool
  | .BREAKOUT_UP => true
  | .BREAKOUT_DOWN => true
  | _ => false

/-- `signal?.startsWith("PULLBACK_")`. -/
def signalIsPullback : Signal → Bool
  | .PULLBACK_LONG => true
  | .PULLBACK_SHORT => true
  | _ => false

/-- `generateCandidateStrategies` (lines 87-133): guard on falsy price / atr,
then push at most one candidate per strategy family, in source order. -/
def generateCandidateStrategies (price : ℚ) (atr20 : Option ℚ) (tf : TfSummary)
    (market : MarketInfo) (nowMs : Nat) : List TradingOpportunity :=
  if price = 0 ∨ atr20 = none ∨ atr20 = some 0 then []
  else
    let c1 :=
      if signalIsBreakout tf.signal && decide ((3/2 : ℚ) < tf.volZ) then
        (buildBreakoutStrategy (if tf.signal = Signal.BREAKOUT_UP then "LONG" else "SHORT")
          price atr20 market nowMs).toList
      else []
    let c2 :=
      if signalIsPullback tf.signal then
        (buildPullbackStrategy (if tf.signal = Signal.PULLBACK_LONG then "LONG" else "SHORT")
          price atr20 market nowMs).toList
      else []
    let c3 :=
      if tf.trend ≠ Trend.RANGE then
        (buildTrendFollowStrategy (if tf.trend = Trend.UP then "LONG" else "SHORT")
          price atr20 market nowMs).toList
      else []
    c1 ++ c2 ++ c3

/-- `confOrder[confidence] || 0` from the sort comparator (lines 35-36). -/
def confOrder (c : String) : Nat :=
  if c = "HIGH" then 3 else if c = "MEDIUM" then 2 else if c = "LOW" then 1 else 0

/-- `a` sorts no later than `b` under the comparator of `analyzeMarket`
(confidence tier descending, then `netRR` descending). -/
def candBefore (a b : TradingOpportunity) : Bool :=
  if confOrder a.confidence = confOrder b.confidence then b.netRR ≤ a.netRR
  else confOrder b.confidence < confOrder a.confidence

/-- Insert into a list sorted by `candBefore`. -/
def insertCand (a : TradingOpportunity) : List TradingOpportunity → List TradingOpportunity
  | [] => [a]
  | b :: rest => if candBefore a b then a :: b :: rest else b :: insertCand a rest

/-- `Array.prototype.sort` with the comparator of `analyzeMarket` (insertion
sort; any sort realizes the JS contract, and the claims only use membership). -/
def sortCands : List TradingOpportunity → List TradingOpportunity
  | [] => []
  | a :: rest => insertCand a (sortCands rest)

/-- The filter-and-sort tail of `analyzeMarket` (lines 32-39), applied to the
candidates generated from a given analysis record (price, atr20, tfSummary). -/
def analyzeMarketFrom (price : ℚ) (atr20 : Option ℚ) (tf : TfSummary)
    (market : MarketInfo) (nowMs : Nat) : List TradingOpportunity :=
  sortCands ((generateCandidateStrategies price atr20 tf market nowMs).filter
    (fun c => decide (minNetRR ≤ c.netRR)))

/-- `analyzeMarket` (lines 21-48): `performFullAnalysis` computes
`atr20 = calculateATR(klines, 20)`; its `tfSummary` is passed as data (its
`volZ` needs a square root). -/
def analyzeMarket (price : ℚ) (klines : List Kline) (tf : TfSummary)
    (market : MarketInfo) (nowMs : Nat) : List TradingOpportunity :=
  analyzeMarketFrom price (calculateATR klines 20) tf market nowMs

end OpportunityEngine

/-- The factor record built by `RiskAssessor.calculateRiskFactors`. -/
structure RiskFactors where
  netRR : ℚ
  volatility : ℚ
  liquidity : ℚ
  marketCondition : ℚ
  priceDistance : ℚ
deriving DecidableEq, Repr

/-- `RiskAssessment` from src/src/types/index.ts (assessment timestamp in ms). -/
structure RiskAssessment where
  opportunityId : String
  riskScore : ℤ
  isAcceptable : Bool
  factors : RiskFactors
  assessedAt : Nat
deriving DecidableEq, Repr

namespace RiskAssessor

/-- `maxVolatilityThreshold = 0.05` (5%). -/
def maxVolatilityThreshold : ℚ := 1/20

/-- `minLiquidityThreshold = 1000000` ($1M). -/
def minLiquidityThreshold : ℚ := 1000000

/-- `calculateRiskFactors`: volatility, liquidity and market condition come
from `Math.random()`-based stubs and are passed in; `riskRewardRatio || 0`
is the identity on the rational field. -/
def calculateRiskFactors (opp : TradingOpportunity)
    (volatility liquidity marketCondition : ℚ) : RiskFactors :=
  { netRR := opp.riskRewardRatio
    volatility := volatility
    liquidity := liquidity
    marketCondition := marketCondition
    priceDistance := opp.distanceToEntry }

/-- `calculateRiskScore` (lines 47-69): weighted sum of capped factor scores,
rounded.  `minNetRRCfg` is `config.risk.minNetRR` (env-configured). -/
def calculateRiskScore (minNetRRCfg : ℚ) (f : RiskFactors) : ℤ :=
  let s1 : ℚ := if minNetRRCfg ≤ f.netRR then 40 * min (f.netRR / 3) 1 else 0
  let s2 : ℚ := if f.volatility ≤ maxVolatilityThreshold
    then 25 * (1 - f.volatility / maxVolatilityThreshold) else 0
  let s3 : ℚ := if minLiquidityThreshold ≤ f.liquidity
    then 20 * min (f.liquidity / (minLiquidityThreshold * 5)) 1 else 0
  let s4 : ℚ := 15 * f.marketCondition
  round (s1 + s2 + s3 + s4)

/-- `isRiskAcceptable` (lines 71-76): conjunction of the four hard checks. -/
def isRiskAcceptable (minNetRRCfg : ℚ) (f : RiskFactors) : Bool :=
  decide (minNetRRCfg ≤ f.netRR)
    && decide (f.volatility ≤ maxVolatilityThreshold)
    && decide (minLiquidityThreshold ≤ f.liquidity)
    && decide ((1/2 : ℚ) ≤ f.marketCondition)

/-- `assessRisk` (lines 11-30). -/
def assessRisk (minNetRRCfg : ℚ) (opp : TradingOpportunity)
    (volatility liquidity marketCondition : ℚ) (nowMs : Nat) : RiskAssessment :=
  let riskFactors := calculateRiskFactors opp volatility liquidity marketCondition
  { opportunityId := opp.id
    riskScore := calculateRiskScore minNetRRCfg riskFactors
    isAcceptable := isRiskAcceptable minNetRRCfg riskFactors
    factors := riskFactors
    assessedAt := nowMs }

end RiskAssessor

namespace AlertClassifier

/-- `atrMultiplier = 1.5`. -/
def atrMultiplier : ℚ := 3/2

/-- `watchThreshold = 0.02` (2%). -/
def watchThreshold : ℚ := 1/50

/-- `readyThreshold = 0.005` (0.5%). -/
def readyThreshold : ℚ := 1/200

/-- `determineAlertLevel` (src/src/server.ts lines 412-424). -/
def determineAlertLevel (distance atr : ℚ) : AlertLevel :=
  let normalizedDistance := |distance|
  if normalizedDistance ≤ readyThreshold then .FIRED
  else if normalizedDistance ≤ atr * atrMultiplier then .READY
  else if normalizedDistance ≤ watchThreshold then .WATCH
  else .WATCH

/-- `estimateTimeToTrigger` (lines 439-453), minutes; `Math.round` is
round-half-up, matching `round`. -/
def estimateTimeToTrigger (distance : ℚ) (level : AlertLevel) : ℤ :=
  let normalizedDistance := |distance|
  match level with
  | .FIRED => 0
  | .READY => round (normalizedDistance * 1000)
  | .WATCH => round (normalizedDistance * 2000)

/-- `classifyAlert` (lines 389-410).  The awaited `calculateATR` stub draws on
`Math.random()`, so its value `atr` is an argument; `distanceToEntry || 0` is
the identity on the rational field. -/
def classifyAlert (opp : TradingOpportunity) (atr : ℚ) (nowMs : Nat) : ClassifiedAlert :=
  let distanceToEntry := opp.distanceToEntry
  let alertLevel := determineAlertLevel distanceToEntry atr
  { opportunityId := opp.id
    level := alertLevel
    distanceToEntry := distanceToEntry
    atr := atr
    estimatedTimeToTrigger := estimateTimeToTrigger distanceToEntry alertLevel
    classifiedAt := nowMs
    opportunity := opp }

end AlertClassifier

namespace DeduplicationCooler

/-- The last character of each level string ("WATCH", "READY", "FIRED"):
pairwise distinct, so the key suffix determines the level. -/
def levelTag : AlertLevel → Char
  | .WATCH => 'H'
  | .READY => 'Y'
  | .FIRED => 'D'

theorem append_toStr_getLast (p : String) (l : AlertLevel) :
    (p ++ l.toStr).data.getLast? = some (levelTag l) := by
  cases l <;>
    · simp only [AlertLevel.toStr]
      rw [String.data_append, List.getLast?_append]
      rfl

theorem generateKey_getLast (a : ClassifiedAlert) :
    (generateKey a).data.getLast? = some (levelTag a.level) := by
  unfold generateKey
  exact append_toStr_getLast (a.opportunity.symbol ++ "_" ++ a.opportunity.strategy ++ "_") a.level

/-- Cooldown keys of alerts at different levels are always different: the key
ends in the level string, and the three level strings have distinct last
characters. -/
theorem level_of_generateKey_eq (a b : ClassifiedAlert)
    (h : generateKey a = generateKey b) : a.level = b.level := by
  have h2 := congrArg (fun s => s.data.getLast?) h
  simp only [generateKey_getLast] at h2
  cases ha : a.level <;> cases hb : b.level <;> simp [ha, hb, levelTag] at h2 <;> rfl

theorem isLevelUpgrade_self (l : AlertLevel) : isLevelUpgrade l l = false := by
  cases l <;> rfl

theorem updateNotificationStats_cooldownMap (c : DeduplicationCooler) (s : String) :
    (updateNotificationStats c s).cooldownMap = c.cooldownMap := by
  unfold updateNotificationStats adjustAdaptiveThreshold
  dsimp only
  split <;> [split <;> rfl; rfl]

theorem updateCooldownEntry_cooldownMap (c : DeduplicationCooler) (k : String)
    (a : ClassifiedAlert) (t : Nat) :
    (updateCooldownEntry c k a t).cooldownMap =
      mapSet c.cooldownMap k
        ⟨a.opportunityId, a.opportunity.symbol, a.opportunity.strategy, a.level, t,
          t + cooldownPeriod⟩ := rfl

/-- On a live entry, `shouldNotify` takes the bypass test and never consults
the adaptive gate. -/
theorem shouldNotify_live_entry (c : DeduplicationCooler) (a : ClassifiedAlert) (now : Nat)
    (e : CooldownEntry) (h1 : mapGet c.cooldownMap (generateKey a) = some e)
    (h2 : now < e.cooldownUntil) :
    shouldNotify c a now =
      if isLevelUpgrade e.level a.level then (true, updateCooldownEntry c (generateKey a) a now)
      else (false, c) := by
  unfold shouldNotify shouldNotifyWith shouldNotifyBody
  simp only [h1, if_pos h2]
  by_cases hu : isLevelUpgrade e.level a.level <;> simp [hu]

/-- With no stored entry under the key, the decision is the adaptive gate. -/
theorem shouldNotify_no_entry (c : DeduplicationCooler) (a : ClassifiedAlert) (now : Nat)
    (h : mapGet c.cooldownMap (generateKey a) = none) :
    (shouldNotify c a now).1 = isAboveAdaptiveThreshold c a := by
  unfold shouldNotify shouldNotifyWith shouldNotifyBody adaptiveGateBranch
  simp only [h]
  by_cases hb : isAboveAdaptiveThreshold c a <;> simp [hb]

/-- With an expired entry under the key, the decision is also the adaptive gate. -/
theorem shouldNotify_expired_entry (c : DeduplicationCooler) (a : ClassifiedAlert) (now : Nat)
    (e : CooldownEntry) (h1 : mapGet c.cooldownMap (generateKey a) = some e)
    (h2 : e.cooldownUntil ≤ now) :
    (shouldNotify c a now).1 = isAboveAdaptiveThreshold c a := by
  unfold shouldNotify shouldNotifyWith shouldNotifyBody adaptiveGateBranch
  simp only [h1]
  rw [if_neg (by omega)]
  by_cases hb : isAboveAdaptiveThreshold c a <;> simp [hb]

end DeduplicationCooler

/-- Fixture opportunity for concrete decision scenarios. -/
def fxOpp (sym strat : String) (rr : ℚ) : TradingOpportunity :=
  { id := "op1", symbol := sym, strategy := strat, direction := "LONG",
    alertLevel := "WATCH", entry := 100, entryPrice := 100, stopLoss := 97,
    takeProfit1 := 107, takeProfit2 := 112, takeProfit := 107, netRR := rr,
    riskRewardRatio := rr, distanceToEntry := 0, confidence := "MEDIUM", timestamp := 0 }

/-- Fixture classified alert for concrete decision scenarios. -/
def fxAlert (sym strat : String) (lvl : AlertLevel) (rr : ℚ) : ClassifiedAlert :=
  { opportunityId := "op1", level := lvl, distanceToEntry := 0, atr := 1/100,
    estimatedTimeToTrigger := 0, classifiedAt := 0, opportunity := fxOpp sym strat rr }

namespace DeduplicationCooler

/-- On no stored entry and a passing adaptive gate, `shouldNotify` allows and
installs the cooldown entry plus the notification-count bump. -/
theorem shouldNotify_no_entry_allow (c : DeduplicationCooler) (a : ClassifiedAlert) (now : Nat)
    (h1 : mapGet c.cooldownMap (generateKey a) = none)
    (h2 : isAboveAdaptiveThreshold c a = true) :
    shouldNotify c a now =
      (true, updateNotificationStats (updateCooldownEntry c (generateKey a) a now)
        a.opportunity.symbol) := by
  unfold shouldNotify shouldNotifyWith shouldNotifyBody adaptiveGateBranch
  simp only [h1, h2]

end DeduplicationCooler

/-- C1 counterexample: for the same (symbol, strategy) within the cooldown
window, a FIRED→WATCH downgrade is claimed to return false, but the code
returns true: the key contains the level, so the WATCH alert misses the live
FIRED entry and passes the adaptive gate. -/
theorem C1_counterexample :
    (DeduplicationCooler.shouldNotify DeduplicationCooler.empty
      (fxAlert "BTCUSDT" "BREAKOUT" AlertLevel.FIRED 10) 0).1 = true ∧
    (DeduplicationCooler.shouldNotify
      (DeduplicationCooler.shouldNotify DeduplicationCooler.empty
        (fxAlert "BTCUSDT" "BREAKOUT" AlertLevel.FIRED 10) 0).2
      (fxAlert "BTCUSDT" "BREAKOUT" AlertLevel.WATCH 10) 60000).1 = true := by
  constructor
  · decide
  · decide

/-- C1 (amended): keys of alerts at different levels are always distinct, so a
level change never sees the stored entry; the level-upgrade bypass branch
(reachable only for an entry stored under the very same key at a strictly
lower level) returns true and overwrites the entry, and when no entry is
stored under the key the decision equals the adaptive-threshold gate. -/
theorem C1_amended :
    (∀ a b : ClassifiedAlert,
      DeduplicationCooler.generateKey a = DeduplicationCooler.generateKey b →
        a.level = b.level) ∧
    (∀ (c : DeduplicationCooler) (a : ClassifiedAlert) (now : Nat) (e : CooldownEntry),
      mapGet c.cooldownMap (DeduplicationCooler.generateKey a) = some e →
      now < e.cooldownUntil →
      DeduplicationCooler.shouldNotify c a now =
        if DeduplicationCooler.isLevelUpgrade e.level a.level then
          (true, DeduplicationCooler.updateCooldownEntry c
            (DeduplicationCooler.generateKey a) a now)
        else (false, c)) ∧
    (∀ (c : DeduplicationCooler) (a : ClassifiedAlert) (now : Nat),
      mapGet c.cooldownMap (DeduplicationCooler.generateKey a) = none →
      (DeduplicationCooler.shouldNotify c a now).1 =
        DeduplicationCooler.isAboveAdaptiveThreshold c a) :=
  ⟨DeduplicationCooler.level_of_generateKey_eq,
   DeduplicationCooler.shouldNotify_live_entry,
   DeduplicationCooler.shouldNotify_no_entry⟩

/-- Artificial state with a live WATCH-level entry stored under a READY key
(exercises the bypass branch, which reachable states never do). -/
def fxC1Entry : CooldownEntry := ⟨"op0", "X", "S", AlertLevel.WATCH, 0, 100⟩

def fxC1State : DeduplicationCooler := ⟨[("X_S_READY", fxC1Entry)], [], []⟩

/-- Witness for C1 (amended) at concrete inputs. -/
theorem C1_amended_witness :
    (fxAlert "X" "S" AlertLevel.READY 7).level = (fxAlert "X" "S" AlertLevel.READY 7).level ∧
    DeduplicationCooler.shouldNotify fxC1State (fxAlert "X" "S" AlertLevel.READY 7) 5 =
      (if DeduplicationCooler.isLevelUpgrade fxC1Entry.level AlertLevel.READY then
        (true, DeduplicationCooler.updateCooldownEntry fxC1State
          (DeduplicationCooler.generateKey (fxAlert "X" "S" AlertLevel.READY 7))
          (fxAlert "X" "S" AlertLevel.READY 7) 5)
      else (false, fxC1State)) ∧
    (DeduplicationCooler.shouldNotify DeduplicationCooler.empty
      (fxAlert "X" "S" AlertLevel.READY 7) 5).1 =
      DeduplicationCooler.isAboveAdaptiveThreshold DeduplicationCooler.empty
        (fxAlert "X" "S" AlertLevel.READY 7) :=
  ⟨C1_amended.1 (fxAlert "X" "S" AlertLevel.READY 7) (fxAlert "X" "S" AlertLevel.READY 7) rfl,
   C1_amended.2.1 fxC1State (fxAlert "X" "S" AlertLevel.READY 7) 5 fxC1Entry (by decide)
      (by decide),
   C1_amended.2.2 DeduplicationCooler.empty (fxAlert "X" "S" AlertLevel.READY 7) 5 (by decide)⟩

/-- C2: with no live entry for the key and risk/reward at or above the
adaptive threshold, the first call notifies (true) and an identical call at
the same level within the 30-minute window is suppressed (false). -/
theorem C2_once_then_suppressed :
    ∀ (c : DeduplicationCooler) (a : ClassifiedAlert) (t1 t2 : Nat),
      mapGet c.cooldownMap (DeduplicationCooler.generateKey a) = none →
      DeduplicationCooler.isAboveAdaptiveThreshold c a = true →
      t2 < t1 + DeduplicationCooler.cooldownPeriod →
      (DeduplicationCooler.shouldNotify c a t1).1 = true ∧
      (DeduplicationCooler.shouldNotify
        (DeduplicationCooler.shouldNotify c a t1).2 a t2).1 = false := by
  intro c a t1 t2 h1 h2 h3
  rw [DeduplicationCooler.shouldNotify_no_entry_allow c a t1 h1 h2]
  refine ⟨rfl, ?_⟩
  rw [DeduplicationCooler.shouldNotify_live_entry _ a t2
    ⟨a.opportunityId, a.opportunity.symbol, a.opportunity.strategy, a.level, t1,
      t1 + DeduplicationCooler.cooldownPeriod⟩ ?_ h3]
  · rw [DeduplicationCooler.isLevelUpgrade_self]
    rfl
  · rw [DeduplicationCooler.updateNotificationStats_cooldownMap,
      DeduplicationCooler.updateCooldownEntry_cooldownMap]
    exact mapGet_mapSet_self _ _ _

/-- Witness for C2 at concrete inputs. -/
theorem C2_witness :
    (DeduplicationCooler.shouldNotify DeduplicationCooler.empty
      (fxAlert "ETHUSDT" "PULLBACK" AlertLevel.READY 5) 1000).1 = true ∧
    (DeduplicationCooler.shouldNotify
      (DeduplicationCooler.shouldNotify DeduplicationCooler.empty
        (fxAlert "ETHUSDT" "PULLBACK" AlertLevel.READY 5) 1000).2
      (fxAlert "ETHUSDT" "PULLBACK" AlertLevel.READY 5) 61000).1 = false :=
  C2_once_then_suppressed DeduplicationCooler.empty
    (fxAlert "ETHUSDT" "PULLBACK" AlertLevel.READY 5) 1000 61000 (by decide) (by decide)
    (by decide)

/-- C4: the catch arm of `shouldNotify` maps any error raised by the decision
body to a suppression: the result is `(false, unchanged state)`.  The one
fallible subcomputation (the awaited adaptive check, which precedes every
mutation) is injected as `f`. -/
theorem C4_error_suppresses :
    ∀ (c : DeduplicationCooler) (a : ClassifiedAlert) (now : Nat)
      (f : DeduplicationCooler → ClassifiedAlert → Except String Bool) (e : String),
      DeduplicationCooler.shouldNotifyBody c a now f = Except.error e →
      DeduplicationCooler.shouldNotifyWith c a now f = (false, c) := by
  intro c a now f e h
  unfold DeduplicationCooler.shouldNotifyWith
  rw [h]

/-- A decision whose adaptive check always rejects. -/
def fxFail : DeduplicationCooler → ClassifiedAlert → Except String Bool :=
  fun _ _ => Except.error "boom"

/-- Witness for C4: a rejecting adaptive check makes the decision suppress. -/
theorem C4_witness :
    DeduplicationCooler.shouldNotifyBody DeduplicationCooler.empty
      (fxAlert "X" "S" AlertLevel.WATCH 10) 0 fxFail = Except.error "boom" ∧
    DeduplicationCooler.shouldNotifyWith DeduplicationCooler.empty
      (fxAlert "X" "S" AlertLevel.WATCH 10) 0 fxFail = (false, DeduplicationCooler.empty) :=
  ⟨rfl,
   C4_error_suppresses DeduplicationCooler.empty (fxAlert "X" "S" AlertLevel.WATCH 10) 0 fxFail
    "boom" rfl⟩

/-- C10: whenever the decision returns false — cooldown suppression, adaptive
gate failure, or the error path (any injected adaptive check `f`) — the
returned state is exactly the input state: cooldown map, notification
counters and adaptive thresholds are all untouched. -/
theorem C10_suppress_frame :
    ∀ (c : DeduplicationCooler) (a : ClassifiedAlert) (now : Nat)
      (f : DeduplicationCooler → ClassifiedAlert → Except String Bool),
      (DeduplicationCooler.shouldNotifyWith c a now f).1 = false →
      (DeduplicationCooler.shouldNotifyWith c a now f).2 = c := by
  intro c a now f h
  unfold DeduplicationCooler.shouldNotifyWith DeduplicationCooler.shouldNotifyBody
    DeduplicationCooler.adaptiveGateBranch at h ⊢
  cases hm : mapGet c.cooldownMap (DeduplicationCooler.generateKey a) with
  | some e =>
    simp only [hm] at h ⊢
    by_cases hl : now < e.cooldownUntil
    · simp only [if_pos hl] at h ⊢
      by_cases hu : DeduplicationCooler.isLevelUpgrade e.level a.level
      · simp [hu] at h
      · simp [hu]
    · simp only [if_neg hl] at h ⊢
      cases hf : f c a with
      | error e2 => simp [hf]
      | ok b =>
        cases b
        · simp [hf]
        · simp [hf] at h
  | none =>
    simp only [hm] at h ⊢
    cases hf : f c a with
    | error e2 => simp [hf]
    | ok b =>
      cases b
      · simp [hf]
      · simp [hf] at h

/-- Witness for C10: a concrete suppressed decision leaves the state intact. -/
theorem C10_witness :
    (DeduplicationCooler.shouldNotifyWith DeduplicationCooler.empty
      (fxAlert "X" "S" AlertLevel.WATCH 0) 0
      (fun c2 a => Except.ok (DeduplicationCooler.isAboveAdaptiveThreshold c2 a))).2 =
      DeduplicationCooler.empty :=
  C10_suppress_frame DeduplicationCooler.empty (fxAlert "X" "S" AlertLevel.WATCH 0) 0
    (fun c2 a => Except.ok (DeduplicationCooler.isAboveAdaptiveThreshold c2 a)) (by decide)

namespace DeduplicationCooler

/-- One adjustment step never lowers a stored value in `[0, 5]`. -/
theorem falsy_step_ge (v : ℚ) (h0 : 0 ≤ v) (h5 : v ≤ 5) :
    v ≤ min (falsyOr (some v) 2 * (11/10)) 5 := by
  unfold falsyOr
  by_cases hv : v = 0
  · subst hv
    norm_num
  · simp only [if_neg hv]
    exact le_min (by nlinarith) h5

/-- `adjustAdaptiveThreshold` never lowers a stored threshold in `[0, 5]`. -/
theorem adjustAdaptiveThreshold_mono (c : DeduplicationCooler) (sym s : String) (v : ℚ)
    (hv : mapGet c.adaptiveThresholds s = some v) (h0 : 0 ≤ v) (h5 : v ≤ 5) :
    ∃ v2, mapGet (adjustAdaptiveThreshold c sym).adaptiveThresholds s = some v2 ∧ v ≤ v2 := by
  unfold adjustAdaptiveThreshold
  dsimp only
  split
  · by_cases hs : sym = s
    · subst hs
      rw [mapGet_mapSet_self, hv]
      exact ⟨_, rfl, falsy_step_ge v h0 h5⟩
    · rw [mapGet_mapSet_ne _ _ _ _ hs, hv]
      exact ⟨v, rfl, le_refl v⟩
  · exact ⟨v, hv, le_refl v⟩

/-- `updateNotificationStats` never lowers a stored threshold in `[0, 5]`. -/
theorem updateNotificationStats_mono (c : DeduplicationCooler) (sym s : String) (v : ℚ)
    (hv : mapGet c.adaptiveThresholds s = some v) (h0 : 0 ≤ v) (h5 : v ≤ 5) :
    ∃ v2, mapGet (updateNotificationStats c sym).adaptiveThresholds s = some v2 ∧ v ≤ v2 := by
  unfold updateNotificationStats
  dsimp only
  split
  · exact adjustAdaptiveThreshold_mono _ sym s v hv h0 h5
  · exact ⟨v, hv, le_refl v⟩

/-- The state returned by a decision is one of: unchanged, cooldown entry
overwritten, or cooldown entry overwritten plus the statistics bump. -/
theorem shouldNotify_state_cases (c : DeduplicationCooler) (a : ClassifiedAlert) (t : Nat) :
    (shouldNotify c a t).2 = c ∨
    (shouldNotify c a t).2 = updateCooldownEntry c (generateKey a) a t ∨
    (shouldNotify c a t).2 =
      updateNotificationStats (updateCooldownEntry c (generateKey a) a t)
        a.opportunity.symbol := by
  unfold shouldNotify shouldNotifyWith shouldNotifyBody adaptiveGateBranch
  cases hm : mapGet c.cooldownMap (generateKey a) with
  | some e =>
    simp only [hm]
    by_cases hl : t < e.cooldownUntil
    · simp only [if_pos hl]
      by_cases hu : isLevelUpgrade e.level a.level <;> simp [hu]
    · simp only [if_neg hl]
      by_cases hb : isAboveAdaptiveThreshold c a <;> simp [hb]
  | none =>
    simp only [hm]
    by_cases hb : isAboveAdaptiveThreshold c a <;> simp [hb]

end DeduplicationCooler

/-- The alert driven through sixty successful notifications (rr 10 clears
every threshold; calls 31 minutes apart so each cooldown has expired). -/
def fxC3Alert : ClassifiedAlert := fxAlert "BTCUSDT" "BREAKOUT" AlertLevel.WATCH 10

/-- A WATCH alert with risk/reward 2.5: below the 3.0 base bar, above 2.2. -/
def fxC3Alert25 : ClassifiedAlert := fxAlert "BTCUSDT" "BREAKOUT" AlertLevel.WATCH (5/2)

/-- The cooler state after sixty successful notifications for one symbol. -/
def fxC3State : DeduplicationCooler :=
  (List.range 60).foldl
    (fun c i => (DeduplicationCooler.shouldNotify c fxC3Alert (i * 1860000)).2)
    DeduplicationCooler.empty

set_option maxRecDepth 10000 in
/-- C3 counterexample: the effective threshold applied by `shouldNotify` for
(BTCUSDT, WATCH) is 3.0 on a fresh instance but 2.2 after the sixtieth
notification: the first adaptive adjustment seeds the per-symbol store at
`min(2.0 * 1.1, 5.0) = 2.2`, below the WATCH base — the effective threshold
DECREASES, and a rr-2.5 alert suppressed initially is now allowed. -/
theorem C3_counterexample :
    DeduplicationCooler.effectiveThreshold DeduplicationCooler.empty "BTCUSDT"
      AlertLevel.WATCH = 3 ∧
    DeduplicationCooler.effectiveThreshold fxC3State "BTCUSDT" AlertLevel.WATCH = 11/5 ∧
    ((11:ℚ)/5 < 3) ∧
    (DeduplicationCooler.shouldNotify DeduplicationCooler.empty fxC3Alert25 0).1 = false ∧
    (DeduplicationCooler.shouldNotify fxC3State fxC3Alert25 (59 * 1860000 + 1800000)).1 =
      true := by
  refine ⟨by decide, by decide, by norm_num, by decide, by decide⟩

/-- C3 (amended): the adaptive threshold is adjusted only on every 10th
notification for the instrument; the adjustment stores
`min(current * 1.1, 5.0)` (with `current` defaulting to 2.0) only when the
lifetime count exceeds 50; and the STORED per-instrument threshold values
never decrease across decisions — but (see the counterexample) the effective
threshold applied by `shouldNotify` can decrease when the store is first
seeded below the WATCH/READY base values. -/
theorem C3_amended :
    (∀ (c : DeduplicationCooler) (s : String),
      ((mapGet c.notificationStats s).getD 0 + 1) % 10 ≠ 0 →
      (DeduplicationCooler.updateNotificationStats c s).adaptiveThresholds =
        c.adaptiveThresholds) ∧
    (∀ (c : DeduplicationCooler) (s : String),
      (mapGet c.notificationStats s).getD 0 ≤ 50 →
      DeduplicationCooler.adjustAdaptiveThreshold c s = c) ∧
    (∀ (c : DeduplicationCooler) (s : String),
      50 < (mapGet c.notificationStats s).getD 0 →
      (DeduplicationCooler.adjustAdaptiveThreshold c s).adaptiveThresholds =
        mapSet c.adaptiveThresholds s
          (min (DeduplicationCooler.falsyOr (mapGet c.adaptiveThresholds s) 2 * (11/10)) 5)) ∧
    (∀ (c : DeduplicationCooler) (a : ClassifiedAlert) (t : Nat) (s : String) (v : ℚ),
      mapGet c.adaptiveThresholds s = some v → 0 ≤ v → v ≤ 5 →
      ∃ v2,
        mapGet (DeduplicationCooler.shouldNotify c a t).2.adaptiveThresholds s = some v2 ∧
          v ≤ v2) := by
  refine ⟨?_, ?_, ?_, ?_⟩
  · intro c s h
    unfold DeduplicationCooler.updateNotificationStats
    dsimp only
    rw [if_neg h]
  · intro c s h
    unfold DeduplicationCooler.adjustAdaptiveThreshold
    dsimp only
    rw [if_neg (by omega)]
  · intro c s h
    unfold DeduplicationCooler.adjustAdaptiveThreshold
    dsimp only
    rw [if_pos h]
  · intro c a t s v hv h0 h5
    rcases DeduplicationCooler.shouldNotify_state_cases c a t with h | h | h <;> rw [h]
    · exact ⟨v, hv, le_refl v⟩
    · exact ⟨v, hv, le_refl v⟩
    · exact DeduplicationCooler.updateNotificationStats_mono _ _ s v hv h0 h5

/-- State with sixty recorded notifications for symbol A (stats only). -/
def fxC3StatState : DeduplicationCooler := ⟨[], [("A", 60)], []⟩

/-- State with a stored adaptive threshold of 3 for symbol A. -/
def fxC3ThrState : DeduplicationCooler := ⟨[], [], [("A", 3)]⟩

/-- Witness for C3 (amended) at concrete inputs. -/
theorem C3_amended_witness :
    (DeduplicationCooler.updateNotificationStats DeduplicationCooler.empty "A").adaptiveThresholds
      = DeduplicationCooler.empty.adaptiveThresholds ∧
    DeduplicationCooler.adjustAdaptiveThreshold DeduplicationCooler.empty "A" =
      DeduplicationCooler.empty ∧
    (DeduplicationCooler.adjustAdaptiveThreshold fxC3StatState "A").adaptiveThresholds =
      mapSet fxC3StatState.adaptiveThresholds "A"
        (min (DeduplicationCooler.falsyOr (mapGet fxC3StatState.adaptiveThresholds "A") 2
          * (11/10)) 5) ∧
    (∃ v2,
      mapGet (DeduplicationCooler.shouldNotify fxC3ThrState
        (fxAlert "A" "S" AlertLevel.WATCH 0) 0).2.adaptiveThresholds "A" = some v2 ∧
        (3:ℚ) ≤ v2) :=
  ⟨C3_amended.1 DeduplicationCooler.empty "A" (by decide),
   C3_amended.2.1 DeduplicationCooler.empty "A" (by decide),
   C3_amended.2.2.1 fxC3StatState "A" (by decide),
   C3_amended.2.2.2 fxC3ThrState (fxAlert "A" "S" AlertLevel.WATCH 0) 0 "A" 3 (by decide)
     (by norm_num) (by norm_num)⟩

namespace OpportunityEngine

theorem mem_insertCand (a b : TradingOpportunity) (l : List TradingOpportunity) :
    b ∈ insertCand a l ↔ b = a ∨ b ∈ l := by
  induction l with
  | nil => simp [insertCand]
  | cons hd tl ih =>
    unfold insertCand
    split
    · simp [List.mem_cons]
    · simp only [List.mem_cons, ih]
      tauto

theorem mem_sortCands (b : TradingOpportunity) (l : List TradingOpportunity) :
    b ∈ sortCands l ↔ b ∈ l := by
  induction l with
  | nil => simp [sortCands]
  | cons hd tl ih =>
    unfold sortCands
    rw [mem_insertCand, ih]
    simp [List.mem_cons]

/-- Every member of the generated candidate list comes from one of the three
strategy builders, called with direction LONG or SHORT. -/
theorem mem_generateCandidateStrategies (price : ℚ) (atr : Option ℚ) (tf : TfSummary)
    (mkt : MarketInfo) (now : Nat) (o : TradingOpportunity)
    (h : o ∈ generateCandidateStrategies price atr tf mkt now) :
    ∃ d, (d = "LONG" ∨ d = "SHORT") ∧
      (buildBreakoutStrategy d price atr mkt now = some o ∨
       buildPullbackStrategy d price atr mkt now = some o ∨
       buildTrendFollowStrategy d price atr mkt now = some o) := by
  unfold generateCandidateStrategies at h
  split at h
  · simp at h
  · simp only at h
    simp only [List.mem_append] at h
    rcases h with (h | h) | h
    · split at h
      · simp only [Option.mem_toList, Option.mem_def] at h
        refine ⟨_, ?_, Or.inl h⟩
        split <;> simp
      · simp at h
    · split at h
      · simp only [Option.mem_toList, Option.mem_def] at h
        refine ⟨_, ?_, Or.inr (Or.inl h)⟩
        split <;> simp
      · simp at h
    · split at h
      · simp only [Option.mem_toList, Option.mem_def] at h
        refine ⟨_, ?_, Or.inr (Or.inr h)⟩
        split <;> simp
      · simp at h

/-- A produced base stop distance is positive whenever the ATR is nonnegative
(the builders are reached only with `atr` not `null` and nonzero). -/
theorem calculateBaseStopDist_pos (price : ℚ) (atr : Option ℚ) (bsd : ℚ)
    (h : calculateBaseStopDist price atr = some bsd)
    (hnn : ∀ x, atr = some x → 0 ≤ x) : 0 < bsd := by
  unfold calculateBaseStopDist at h
  cases atr with
  | none => simp at h
  | some a =>
    simp only at h
    split at h
    · simp at h
    · have ha : 0 ≤ a := hnn a rfl
      have ha2 : 0 < a := lt_of_le_of_ne ha (by simp_all [eq_comm])
      have hx : a * (3/2) ≤ bsd := by
        have := Option.some.inj h
        rw [← this]
        exact le_max_left _ _
      nlinarith

/-- Level placement of a breakout candidate: entry at market, stop one base
distance away, take-profits at 2.5 and 4 stop distances on the profit side. -/
theorem buildBreakout_levels (d : String) (price : ℚ) (atr : Option ℚ) (mkt : MarketInfo)
    (now : Nat) (o : TradingOpportunity)
    (h : buildBreakoutStrategy d price atr mkt now = some o) :
    ∃ bsd, calculateBaseStopDist price atr = some bsd ∧
      o.direction = d ∧ o.entry = price ∧
      o.stopLoss = (if d = "LONG" then price - bsd else price + bsd) ∧
      o.takeProfit1 = (if d = "LONG" then price + |bsd| * (5/2) else price - |bsd| * (5/2)) ∧
      o.takeProfit2 = (if d = "LONG" then price + |bsd| * 4 else price - |bsd| * 4) := by
  unfold buildBreakoutStrategy at h
  cases hc : calculateBaseStopDist price atr with
  | none => rw [hc] at h; simp at h
  | some bsd =>
    rw [hc] at h
    simp only at h
    refine ⟨bsd, rfl, ?_⟩
    by_cases hd : d = "LONG"
    · simp only [if_pos hd] at h ⊢
      rw [show price - (price - bsd) = bsd from by ring] at h
      split at h
      · simp at h
      · obtain rfl := Option.some.inj h
        exact ⟨rfl, rfl, rfl, rfl, rfl⟩
    · simp only [if_neg hd] at h ⊢
      rw [show price - (price + bsd) = -bsd from by ring, abs_neg] at h
      split at h
      · simp at h
      · obtain rfl := Option.some.inj h
        exact ⟨rfl, rfl, rfl, rfl, rfl⟩

/-- Level placement of a pullback candidate: entry offset 0.3 base distances
into the pullback, stop one base distance beyond, take-profits at 2.5 and 4
stop distances. -/
theorem buildPullback_levels (d : String) (price : ℚ) (atr : Option ℚ) (mkt : MarketInfo)
    (now : Nat) (o : TradingOpportunity)
    (h : buildPullbackStrategy d price atr mkt now = some o) :
    ∃ bsd, calculateBaseStopDist price atr = some bsd ∧
      o.direction = d ∧
      o.entry = (if d = "LONG" then price - bsd * (3/10) else price + bsd * (3/10)) ∧
      o.stopLoss = (if d = "LONG" then o.entry - bsd else o.entry + bsd) ∧
      o.takeProfit1 =
        (if d = "LONG" then o.entry + |bsd| * (5/2) else o.entry - |bsd| * (5/2)) ∧
      o.takeProfit2 = (if d = "LONG" then o.entry + |bsd| * 4 else o.entry - |bsd| * 4) := by
  unfold buildPullbackStrategy at h
  cases hc : calculateBaseStopDist price atr with
  | none => rw [hc] at h; simp at h
  | some bsd =>
    rw [hc] at h
    simp only at h
    refine ⟨bsd, rfl, ?_⟩
    by_cases hd : d = "LONG"
    · simp only [if_pos hd] at h ⊢
      rw [show price - bsd * (3/10) - (price - bsd * (3/10) - bsd) = bsd from by ring] at h
      split at h
      · simp at h
      · obtain rfl := Option.some.inj h
        exact ⟨rfl, rfl, rfl, rfl, rfl⟩
    · simp only [if_neg hd] at h ⊢
      rw [show price + bsd * (3/10) - (price + bsd * (3/10) + bsd) = -bsd from by ring,
        abs_neg] at h
      split at h
      · simp at h
      · obtain rfl := Option.some.inj h
        exact ⟨rfl, rfl, rfl, rfl, rfl⟩

/-- Level placement of a trend-follow candidate: entry at market, stop 1.2
base distances away, take-profits at 3 and 5 stop distances. -/
theorem buildTrendFollow_levels (d : String) (price : ℚ) (atr : Option ℚ) (mkt : MarketInfo)
    (now : Nat) (o : TradingOpportunity)
    (h : buildTrendFollowStrategy d price atr mkt now = some o) :
    ∃ bsd, calculateBaseStopDist price atr = some bsd ∧
      o.direction = d ∧ o.entry = price ∧
      o.stopLoss = (if d = "LONG" then price - bsd * (6/5) else price + bsd * (6/5)) ∧
      o.takeProfit1 =
        (if d = "LONG" then price + |bsd * (6/5)| * 3 else price - |bsd * (6/5)| * 3) ∧
      o.takeProfit2 =
        (if d = "LONG" then price + |bsd * (6/5)| * 5 else price - |bsd * (6/5)| * 5) := by
  unfold buildTrendFollowStrategy at h
  cases hc : calculateBaseStopDist price atr with
  | none => rw [hc] at h; simp at h
  | some bsd =>
    rw [hc] at h
    simp only at h
    refine ⟨bsd, rfl, ?_⟩
    by_cases hd : d = "LONG"
    · simp only [if_pos hd] at h ⊢
      rw [show price - (price - bsd * (6/5)) = bsd * (6/5) from by ring] at h
      split at h
      · simp at h
      · obtain rfl := Option.some.inj h
        exact ⟨rfl, rfl, rfl, rfl, rfl⟩
    · simp only [if_neg hd] at h ⊢
      rw [show price - (price + bsd * (6/5)) = -(bsd * (6/5)) from by ring, abs_neg] at h
      split at h
      · simp at h
      · obtain rfl := Option.some.inj h
        exact ⟨rfl, rfl, rfl, rfl, rfl⟩

/-- Side-correctness of every emitted candidate, for any analysis summary,
given a nonnegative ATR. -/
theorem sides_of_mem_analyzeMarketFrom (price : ℚ) (atr : Option ℚ) (tf : TfSummary)
    (mkt : MarketInfo) (now : Nat) (o : TradingOpportunity)
    (hnn : ∀ x, atr = some x → 0 ≤ x)
    (h : o ∈ analyzeMarketFrom price atr tf mkt now) :
    (o.direction = "LONG" ∨ o.direction = "SHORT") ∧
    (o.direction = "LONG" →
      o.stopLoss < o.entry ∧ o.entry < o.takeProfit1 ∧ o.takeProfit1 < o.takeProfit2) ∧
    (o.direction = "SHORT" →
      o.takeProfit2 < o.takeProfit1 ∧ o.takeProfit1 < o.entry ∧ o.entry < o.stopLoss) := by
  unfold analyzeMarketFrom at h
  rw [mem_sortCands] at h
  have h2 := (List.mem_filter.mp h).1
  obtain ⟨d, hdor, hbuild⟩ := mem_generateCandidateStrategies price atr tf mkt now o h2
  rcases hbuild with hb | hb | hb
  · obtain ⟨bsd, hc, hdir, hentry, hsl, htp1, htp2⟩ := buildBreakout_levels _ _ _ _ _ _ hb
    have hpos := calculateBaseStopDist_pos price atr bsd hc hnn
    have habs : |bsd| = bsd := abs_of_pos hpos
    rw [habs] at htp1 htp2
    refine ⟨by rw [hdir]; exact hdor, ?_, ?_⟩
    · intro hdirL
      have hd : d = "LONG" := by rw [← hdir]; exact hdirL
      rw [hd] at hsl htp1 htp2
      rw [if_pos rfl] at hsl
      rw [if_pos rfl] at htp1
      rw [if_pos rfl] at htp2
      rw [hentry, hsl, htp1, htp2]
      refine ⟨by linarith, by linarith, by linarith⟩
    · intro hdirS
      have hd : d = "SHORT" := by rw [← hdir]; exact hdirS
      rw [hd] at hsl htp1 htp2
      rw [if_neg (by decide)] at hsl
      rw [if_neg (by decide)] at htp1
      rw [if_neg (by decide)] at htp2
      rw [hentry, hsl, htp1, htp2]
      refine ⟨by linarith, by linarith, by linarith⟩
  · obtain ⟨bsd, hc, hdir, hentry, hsl, htp1, htp2⟩ := buildPullback_levels _ _ _ _ _ _ hb
    have hpos := calculateBaseStopDist_pos price atr bsd hc hnn
    have habs : |bsd| = bsd := abs_of_pos hpos
    rw [habs] at htp1 htp2
    refine ⟨by rw [hdir]; exact hdor, ?_, ?_⟩
    · intro hdirL
      have hd : d = "LONG" := by rw [← hdir]; exact hdirL
      rw [hd] at hsl htp1 htp2
      rw [if_pos rfl] at hsl
      rw [if_pos rfl] at htp1
      rw [if_pos rfl] at htp2
      rw [hsl, htp1, htp2]
      refine ⟨by linarith, by linarith, by linarith⟩
    · intro hdirS
      have hd : d = "SHORT" := by rw [← hdir]; exact hdirS
      rw [hd] at hsl htp1 htp2
      rw [if_neg (by decide)] at hsl
      rw [if_neg (by decide)] at htp1
      rw [if_neg (by decide)] at htp2
      rw [hsl, htp1, htp2]
      refine ⟨by linarith, by linarith, by linarith⟩
  · obtain ⟨bsd, hc, hdir, hentry, hsl, htp1, htp2⟩ := buildTrendFollow_levels _ _ _ _ _ _ hb
    have hpos := calculateBaseStopDist_pos price atr bsd hc hnn
    have habs : |bsd * (6/5)| = bsd * (6/5) := abs_of_pos (by linarith)
    rw [habs] at htp1 htp2
    refine ⟨by rw [hdir]; exact hdor, ?_, ?_⟩
    · intro hdirL
      have hd : d = "LONG" := by rw [← hdir]; exact hdirL
      rw [hd] at hsl htp1 htp2
      rw [if_pos rfl] at hsl
      rw [if_pos rfl] at htp1
      rw [if_pos rfl] at htp2
      rw [hentry, hsl, htp1, htp2]
      refine ⟨by linarith, by linarith, by linarith⟩
    · intro hdirS
      have hd : d = "SHORT" := by rw [← hdir]; exact hdirS
      rw [hd] at hsl htp1 htp2
      rw [if_neg (by decide)] at hsl
      rw [if_neg (by decide)] at htp1
      rw [if_neg (by decide)] at htp2
      rw [hentry, hsl, htp1, htp2]
      refine ⟨by linarith, by linarith, by linarith⟩

theorem trueRanges_nonneg (klines : List Kline) : ∀ x ∈ trueRanges klines, 0 ≤ x := by
  induction klines with
  | nil => simp [trueRanges]
  | cons k0 rest ih =>
    cases rest with
    | nil => simp [trueRanges]
    | cons k1 rest2 =>
      intro x hx
      unfold trueRanges at hx
      rcases List.mem_cons.mp hx with rfl | hx2
      · have h1 : (0:ℚ) ≤ |k1.high - k0.close| := abs_nonneg _
        have h2 : |k1.high - k0.close| ≤ max |k1.high - k0.close| |k1.low - k0.close| :=
          le_max_left _ _
        have h3 : max |k1.high - k0.close| |k1.low - k0.close| ≤
            max (k1.high - k1.low) (max |k1.high - k0.close| |k1.low - k0.close|) :=
          le_max_right _ _
        linarith
      · exact ih x hx2

theorem foldl_add_nonneg (l : List ℚ) (acc : ℚ) (hacc : 0 ≤ acc)
    (h : ∀ x ∈ l, 0 ≤ x) : 0 ≤ l.foldl (· + ·) acc := by
  induction l generalizing acc with
  | nil => simpa using hacc
  | cons hd tl ih =>
    simp only [List.foldl_cons]
    exact ih (acc + hd) (by have := h hd (by simp); linarith)
      (fun x hx => h x (by simp [hx]))

/-- The average true range is never negative: every true range is a maximum
that includes an absolute value. -/
theorem calculateATR_nonneg (klines : List Kline) (period : Nat) (a : ℚ)
    (h : calculateATR klines period = some a) : 0 ≤ a := by
  unfold calculateATR at h
  split at h
  · simp at h
  · simp only at h
    split at h
    · simp at h
    · have ha := Option.some.inj h
      rw [← ha]
      refine div_nonneg ?_ (by positivity)
      refine foldl_add_nonneg _ 0 (le_refl 0) ?_
      intro x hx
      exact trueRanges_nonneg klines x (List.drop_subset _ _ hx)

/-- Every emitted candidate passed the `netRR >= minNetRR` filter. -/
theorem netRR_of_mem_analyzeMarketFrom (price : ℚ) (atr : Option ℚ) (tf : TfSummary)
    (mkt : MarketInfo) (now : Nat) (o : TradingOpportunity)
    (h : o ∈ analyzeMarketFrom price atr tf mkt now) : minNetRR ≤ o.netRR := by
  unfold analyzeMarketFrom at h
  rw [mem_sortCands] at h
  exact of_decide_eq_true (List.mem_filter.mp h).2

/-- The exact net risk/reward a breakout candidate is tested against:
gross 2.5 stop distances minus round-trip cost in stop-distance units. -/
def breakoutNetRRRaw (price bsd : ℚ) : ℚ :=
  |bsd| * (5/2) / |bsd| - getRoundTripCost true true false true * price / |bsd|

/-- The breakout builder emits a candidate exactly when the base stop distance
exists and the raw net risk/reward is at least `minNetRR` (the comparison in
the source is `netRR < minNetRR -> reject`, so equality is accepted). -/
theorem buildBreakout_isSome_iff (d : String) (price : ℚ) (atr : Option ℚ)
    (mkt : MarketInfo) (now : Nat) :
    (buildBreakoutStrategy d price atr mkt now).isSome = true ↔
    ∃ bsd, calculateBaseStopDist price atr = some bsd ∧
      minNetRR ≤ breakoutNetRRRaw price bsd := by
  unfold buildBreakoutStrategy
  cases hc : calculateBaseStopDist price atr with
  | none => simp
  | some bsd =>
    simp only
    by_cases hd : d = "LONG"
    · simp only [if_pos hd]
      rw [show price - (price - bsd) = bsd from by ring]
      rw [show price + |bsd| * (5/2) - price = |bsd| * (5/2) from by ring]
      rw [abs_of_nonneg (by positivity : (0:ℚ) ≤ |bsd| * (5/2))]
      constructor
      · intro hsome
        split at hsome
        · simp at hsome
        · next hlt => exact ⟨bsd, rfl, not_lt.mp hlt⟩
      · rintro ⟨bsd2, hcb, hge⟩
        obtain rfl : bsd2 = bsd := (Option.some.inj hcb).symm
        unfold breakoutNetRRRaw at hge
        rw [if_neg (not_lt.mpr hge)]
        rfl
    · simp only [if_neg hd]
      rw [show price - (price + bsd) = -bsd from by ring, abs_neg]
      rw [show price - |bsd| * (5/2) - price = -(|bsd| * (5/2)) from by ring, abs_neg]
      rw [abs_of_nonneg (by positivity : (0:ℚ) ≤ |bsd| * (5/2))]
      constructor
      · intro hsome
        split at hsome
        · simp at hsome
        · next hlt => exact ⟨bsd, rfl, not_lt.mp hlt⟩
      · rintro ⟨bsd2, hcb, hge⟩
        obtain rfl : bsd2 = bsd := (Option.some.inj hcb).symm
        unfold breakoutNetRRRaw at hge
        rw [if_neg (not_lt.mpr hge)]
        rfl

end OpportunityEngine

/-- Fixture market info. -/
def fxMkt : MarketInfo := ⟨"BTCUSDT", 7⟩

/-- Dummy opportunity used as a `getD` default in witnesses. -/
def fxDummy : TradingOpportunity :=
  { id := "d", symbol := "d", strategy := "d", direction := "d", alertLevel := "d",
    entry := 0, entryPrice := 0, stopLoss := 0, takeProfit1 := 0, takeProfit2 := 0,
    takeProfit := 0, netRR := 0, riskRewardRatio := 0, distanceToEntry := 0,
    confidence := "d", timestamp := 0 }

/-- C5: every candidate returned by `analyzeMarket` has `netRR` at or above the
1.5 minimum (for every analysis summary), and the breakout builder accepts
exactly the candidates whose raw net risk/reward is `>= minNetRR` — the value
exactly at the minimum is accepted, anything below is rejected. -/
theorem C5_minNetRR :
    (∀ (price : ℚ) (atr : Option ℚ) (tf : TfSummary) (mkt : MarketInfo) (now : Nat)
      (o : TradingOpportunity),
      o ∈ OpportunityEngine.analyzeMarketFrom price atr tf mkt now →
      OpportunityEngine.minNetRR ≤ o.netRR) ∧
    (∀ (d : String) (price : ℚ) (atr : Option ℚ) (mkt : MarketInfo) (now : Nat),
      (OpportunityEngine.buildBreakoutStrategy d price atr mkt now).isSome = true ↔
      ∃ bsd, OpportunityEngine.calculateBaseStopDist price atr = some bsd ∧
        OpportunityEngine.minNetRR ≤ OpportunityEngine.breakoutNetRRRaw price bsd) :=
  ⟨OpportunityEngine.netRR_of_mem_analyzeMarketFrom,
   OpportunityEngine.buildBreakout_isSome_iff⟩

/-- The first candidate of a concrete uptrend run (a trend-follow LONG). -/
def fxC5Cand : TradingOpportunity :=
  (OpportunityEngine.analyzeMarketFrom 100 (some 2) ⟨Trend.UP, Signal.CHOP, 0⟩
    fxMkt 0).getD 0 fxDummy

/-- Witness for C5 at concrete inputs. -/
theorem C5_witness :
    OpportunityEngine.minNetRR ≤ fxC5Cand.netRR ∧
    (OpportunityEngine.buildBreakoutStrategy "LONG" 100 (some 2) fxMkt 0).isSome = true :=
  ⟨C5_minNetRR.1 100 (some 2) ⟨Trend.UP, Signal.CHOP, 0⟩ fxMkt 0 fxC5Cand (by decide),
   (C5_minNetRR.2 "LONG" 100 (some 2) fxMkt 0).mpr ⟨3, by decide, by decide⟩⟩

/-- The breakout candidate built at price 100, ATR 2 (base stop distance 3). -/
def fxC6Opp : TradingOpportunity :=
  { id := "BREAKOUT_LONG_0", symbol := "BTCUSDT", strategy := "BREAKOUT",
    direction := "LONG", alertLevel := "WATCH", entry := 100, entryPrice := 100,
    stopLoss := 97, takeProfit1 := 215/2, takeProfit2 := 112, takeProfit := 215/2,
    netRR := 123/50, riskRewardRatio := 123/50, distanceToEntry := 0,
    confidence := "MEDIUM", timestamp := 7 }

/-- C6 counterexample: at price 100, ATR 2 the breakout builder places
TP1 at 107.5 (2.5 stop distances) and TP2 at 112 (4 stop distances), not at
the claimed 2 and 3 stop distances (106 and 109). -/
theorem C6_counterexample :
    OpportunityEngine.buildBreakoutStrategy "LONG" 100 (some 2) fxMkt 0 = some fxC6Opp ∧
    fxC6Opp.entry = 100 ∧ fxC6Opp.stopLoss = 97 ∧
    fxC6Opp.takeProfit1 = 215/2 ∧ fxC6Opp.takeProfit2 = 112 ∧
    ¬(fxC6Opp.takeProfit1 = fxC6Opp.entry + 2 * (fxC6Opp.entry - fxC6Opp.stopLoss)) ∧
    ¬(fxC6Opp.takeProfit2 = fxC6Opp.entry + 3 * (fxC6Opp.entry - fxC6Opp.stopLoss)) := by
  refine ⟨by decide, by decide, by decide, by decide, by decide, by decide, by decide⟩

/-- C6 (amended): every breakout candidate has entry = market price, stop-loss
one base stop distance from entry, TP1 at 2.5 stop distances and TP2 at 4
stop distances on the profit side for the stated direction. -/
theorem C6_amended :
    ∀ (d : String) (price : ℚ) (atr : Option ℚ) (mkt : MarketInfo) (now : Nat)
      (o : TradingOpportunity),
      OpportunityEngine.buildBreakoutStrategy d price atr mkt now = some o →
      ∃ bsd, OpportunityEngine.calculateBaseStopDist price atr = some bsd ∧
        o.direction = d ∧ o.entry = price ∧
        o.stopLoss = (if d = "LONG" then price - bsd else price + bsd) ∧
        o.takeProfit1 =
          (if d = "LONG" then price + |bsd| * (5/2) else price - |bsd| * (5/2)) ∧
        o.takeProfit2 = (if d = "LONG" then price + |bsd| * 4 else price - |bsd| * 4) :=
  OpportunityEngine.buildBreakout_levels

/-- Witness for C6 (amended) at concrete inputs. -/
theorem C6_amended_witness :
    ∃ bsd, OpportunityEngine.calculateBaseStopDist 100 (some 2) = some bsd ∧
      fxC6Opp.direction = "LONG" ∧ fxC6Opp.entry = 100 ∧
      fxC6Opp.stopLoss = (if "LONG" = "LONG" then 100 - bsd else 100 + bsd) ∧
      fxC6Opp.takeProfit1 =
        (if "LONG" = "LONG" then 100 + |bsd| * (5/2) else 100 - |bsd| * (5/2)) ∧
      fxC6Opp.takeProfit2 =
        (if "LONG" = "LONG" then 100 + |bsd| * 4 else 100 - |bsd| * 4) :=
  C6_amended "LONG" 100 (some 2) fxMkt 0 fxC6Opp (by decide)

/-- C7: every candidate generated by the engine (any strategy family, either
direction) has its stop-loss strictly on the loss side and both take-profits
strictly on the profit side of entry, ordered per the stated direction. -/
theorem C7_sides :
    ∀ (price : ℚ) (klines : List Kline) (tf : TfSummary) (mkt : MarketInfo) (now : Nat)
      (o : TradingOpportunity),
      o ∈ OpportunityEngine.analyzeMarket price klines tf mkt now →
      (o.direction = "LONG" ∨ o.direction = "SHORT") ∧
      (o.direction = "LONG" →
        o.stopLoss < o.entry ∧ o.entry < o.takeProfit1 ∧ o.takeProfit1 < o.takeProfit2) ∧
      (o.direction = "SHORT" →
        o.takeProfit2 < o.takeProfit1 ∧ o.takeProfit1 < o.entry ∧ o.entry < o.stopLoss) := by
  intro price klines tf mkt now o h
  exact OpportunityEngine.sides_of_mem_analyzeMarketFrom price _ tf mkt now o
    (fun x hx => OpportunityEngine.calculateATR_nonneg klines 20 x hx) h

/-- A flat candle: the true range against an identical neighbour is 4. -/
def fxKline : Kline := ⟨0, 100, 102, 98, 100, 5⟩

/-- Twenty-two candles: enough for the 20-period ATR (value 4). -/
def fxC7Klines : List Kline := List.replicate 22 fxKline

/-- The candidate produced by a concrete full-pipeline run. -/
def fxC7Cand : TradingOpportunity :=
  (OpportunityEngine.analyzeMarket 100 fxC7Klines ⟨Trend.UP, Signal.CHOP, 0⟩
    fxMkt 0).getD 0 fxDummy

set_option maxRecDepth 10000 in
/-- Witness for C7 at concrete inputs. -/
theorem C7_witness :
    (fxC7Cand.direction = "LONG" ∨ fxC7Cand.direction = "SHORT") ∧
    (fxC7Cand.direction = "LONG" →
      fxC7Cand.stopLoss < fxC7Cand.entry ∧ fxC7Cand.entry < fxC7Cand.takeProfit1 ∧
        fxC7Cand.takeProfit1 < fxC7Cand.takeProfit2) ∧
    (fxC7Cand.direction = "SHORT" →
      fxC7Cand.takeProfit2 < fxC7Cand.takeProfit1 ∧ fxC7Cand.takeProfit1 < fxC7Cand.entry ∧
        fxC7Cand.entry < fxC7Cand.stopLoss) :=
  C7_sides 100 fxC7Klines ⟨Trend.UP, Signal.CHOP, 0⟩ fxMkt 0 fxC7Cand (by decide)

/-- C8: the acceptance flag computed by `assessRisk` is true exactly when all
four hard threshold checks hold — net risk/reward at or above the configured
minimum, volatility at most 5%, liquidity at least $1,000,000, market
condition at least 0.5 — independently of the composite `riskScore`. -/
theorem C8_acceptance_iff :
    ∀ (minNetRRCfg : ℚ) (opp : TradingOpportunity)
      (volatility liquidity marketCondition : ℚ) (nowMs : Nat),
      (RiskAssessor.assessRisk minNetRRCfg opp volatility liquidity marketCondition
        nowMs).isAcceptable = true ↔
      (minNetRRCfg ≤ opp.riskRewardRatio ∧
        volatility ≤ RiskAssessor.maxVolatilityThreshold ∧
        RiskAssessor.minLiquidityThreshold ≤ liquidity ∧
        (1/2 : ℚ) ≤ marketCondition) := by
  intro minNetRRCfg opp volatility liquidity marketCondition nowMs
  unfold RiskAssessor.assessRisk RiskAssessor.isRiskAcceptable RiskAssessor.calculateRiskFactors
  simp [Bool.and_eq_true, decide_eq_true_eq, and_assoc]

/-- C9: the classifier decision is a pure function of the opportunity's
distance-to-entry and the ATR value: two invocations that agree on those
agree on the urgency level and the estimated time-to-trigger. -/
theorem C9_deterministic :
    ∀ (o1 o2 : TradingOpportunity) (atr1 atr2 : ℚ) (t1 t2 : Nat),
      o1.distanceToEntry = o2.distanceToEntry → atr1 = atr2 →
      (AlertClassifier.classifyAlert o1 atr1 t1).level =
        (AlertClassifier.classifyAlert o2 atr2 t2).level ∧
      (AlertClassifier.classifyAlert o1 atr1 t1).estimatedTimeToTrigger =
        (AlertClassifier.classifyAlert o2 atr2 t2).estimatedTimeToTrigger := by
  intro o1 o2 atr1 atr2 t1 t2 hdist hatr
  unfold AlertClassifier.classifyAlert
  rw [hdist, hatr]
  exact ⟨rfl, rfl⟩

/-- Witness for C9: two invocations at the same distance and ATR but
different opportunities and timestamps agree. -/
theorem C9_witness :
    (AlertClassifier.classifyAlert (fxOpp "A" "BREAKOUT" 2) (1/100) 5).level =
      (AlertClassifier.classifyAlert (fxOpp "B" "PULLBACK" 3) (1/100) 9).level ∧
    (AlertClassifier.classifyAlert (fxOpp "A" "BREAKOUT" 2) (1/100) 5).estimatedTimeToTrigger =
      (AlertClassifier.classifyAlert (fxOpp "B" "PULLBACK" 3)
        (1/100) 9).estimatedTimeToTrigger :=
  C9_deterministic (fxOpp "A" "BREAKOUT" 2) (fxOpp "B" "PULLBACK" 3) (1/100) (1/100) 5 9
    rfl rfl
